import Mathlib

/-!
Verification development for the big-leaf coupled leaf-state solver
(`big_leaf.py`, class `CoupledModel`).

The solver source is embedded shallowly over `ℚ`.  The sub-models it calls
(the Farquhar demand model, the Penman-Monteith energy-balance model, the
solar-geometry routine and the physical-constant table) are collaborators
outside the solver source; following the specification they are treated as
interfaces and appear here as abstract function fields of `Collab` and
abstract constant fields of `Consts`, universally quantified in every
theorem.  The numpy composition `rad2deg ∘ arccos` applied to the
solar-geometry output is likewise an external library function and is one
more abstract field.
-/

namespace BigLeaf

/-- Physical-constant table.  Modelled from the spec: the `constants`
module is a collaborator that "supplies fixed physical constants (Kelvin
offset, specific heat of air, specific gas constant for dry air, universal
gas constant, unit-conversion ratios for boundary-layer CO2-vs-heat
conductance and stomatal CO2-vs-water conductance, Pa-to-kPa factor)".
Only the names the solver reads appear. -/
structure Consts where
  DEG_2_KELVIN : ℚ
  GBH_2_GBC : ℚ
  PA_2_KPA : ℚ
  GSC_2_GSW : ℚ
  RSPECIFC_DRY_AIR : ℚ
  RGAS : ℚ
  CP : ℚ
deriving DecidableEq

/-- External collaborators.  Modelled from the spec: the demand model
(`FarquharC3.calc_photosynthesis`, called with the varying state
`(Cs, Tleaf_K, Par, vpd=dleaf)`; the biochemical parameters are fixed per
solver instance and are absorbed into the function), the energy-balance
model (`PenmanMonteith.calc_rnet`, `calc_conductances`, `calc_et`), the
solar-geometry routine, and the numpy `rad2deg ∘ arccos` composition. -/
structure Collab where
  /-- Demand model, `(Cs, Tleaf_K, Par, dleaf) ↦ (An, gsc, Ci)`. -/
  calc_photosynthesis : ℚ → ℚ → ℚ → ℚ → ℚ × ℚ × ℚ
  /-- Net radiation, `(par, tair, tair_k, tleaf_k, vpd, pressure) ↦ rnet`. -/
  calc_rnet : ℚ → ℚ → ℚ → ℚ → ℚ → ℚ → ℚ
  /-- Conductances, `(tair_k, tleaf, tair, wind, gsc, cmolar) ↦ (grn, gh, gbH, gw)`. -/
  calc_conductances : ℚ → ℚ → ℚ → ℚ → ℚ → ℚ → ℚ × ℚ × ℚ × ℚ
  /-- Transpiration, `(tleaf, tair, vpd, pressure, wind, par, gh, gw, rnet) ↦ (et, le_et)`. -/
  calc_et : ℚ → ℚ → ℚ → ℚ → ℚ → ℚ → ℚ → ℚ → ℚ → ℚ × ℚ
  /-- Solar geometry, `(doy, hod, lat, lon) ↦ cos_zenith`. -/
  calculate_solar_geometry : ℚ → ℚ → ℚ → ℚ → ℚ
  /-- Zenith angle in degrees from its cosine, i.e. numpy
  `rad2deg (arccos cos_zenith)` -/
  rad2deg_arccos : ℚ → ℚ

/-- Modelled from the spec: Python `math.isclose` with default tolerances,
per the Python documentation
`abs(a-b) <= max(rel_tol * max(abs(a), abs(b)), abs_tol)` with
`rel_tol = 1e-9` and `abs_tol = 0.0`. -/
def isclose (a b : ℚ) : Bool :=
  decide (|a - b| ≤ max (1 / 1000000000 * max |a| |b|) 0)

/-- Embedding of `CoupledModel.calc_leaf_temp` (big_leaf.py lines
202-236).  Returns `(new_Tleaf, et, le_et, gbH, gw)`. -/
def calc_leaf_temp (C : Consts) (X : Collab)
    (tleaf tair gsc par vpd pressure wind : ℚ) (rnetArg : Option ℚ) :
    ℚ × ℚ × ℚ × ℚ × ℚ :=
  let tleaf_k := tleaf + C.DEG_2_KELVIN
  let tair_k := tair + C.DEG_2_KELVIN
  let air_density := pressure / (C.RSPECIFC_DRY_AIR * tair_k)
  let cmolar := pressure / (C.RGAS * tair_k)
  let rnet := match rnetArg with
    | none => X.calc_rnet par tair tair_k tleaf_k vpd pressure
    | some r => r
  let cond := X.calc_conductances tair_k tleaf tair wind gsc cmolar
  let grn := cond.1
  let gh := cond.2.1
  let gbH := cond.2.2.1
  let gw := cond.2.2.2
  let etle := if isclose gsc 0 then ((0 : ℚ), (0 : ℚ))
    else X.calc_et tleaf tair vpd pressure wind par gh gw rnet
  let et := etle.1
  let le_et := etle.2
  let Y := 1 / (1 + 2 * grn / (2 * gbH))
  let H := Y * (rnet - le_et)
  let new_Tleaf := tair + H / (C.CP * air_density * (gh / cmolar))
  (new_Tleaf, et, le_et, gbH, gw)

/-- All quantities produced by one execution of the body of the `while`
loop of `CoupledModel.main` (big_leaf.py lines 115-154), as a function of
the mutable iteration state `(Cs, dleaf, Tleaf)`. -/
structure StepOut where
  An : ℚ
  gsc : ℚ
  Ci : ℚ
  new_tleaf : ℚ
  et : ℚ
  le_et : ℚ
  gbH : ℚ
  gw : ℚ
  gbc : ℚ
  Cs' : ℚ
  dleaf' : ℚ
deriving DecidableEq

/-- One execution of the loop body of `CoupledModel.main` (big_leaf.py
lines 116-141): demand-model call, energy-balance step, surface-CO2
update and surface-VPD update.  `dair` is the air VPD fixed before the
loop (`main` passes `dair = vpd`). -/
def step (C : Consts) (X : Collab)
    (tair par vpd dair wind pressure Ca : ℚ) (rnetArg : Option ℚ)
    (Cs dleaf Tleaf : ℚ) : StepOut :=
  let Tleaf_K := Tleaf + C.DEG_2_KELVIN
  let p := X.calc_photosynthesis Cs Tleaf_K par dleaf
  let An := p.1
  let gsc := p.2.1
  let Ci := p.2.2
  let r := calc_leaf_temp C X Tleaf tair gsc par vpd pressure wind rnetArg
  let new_tleaf := r.1
  let et := r.2.1
  let le_et := r.2.2.1
  let gbH := r.2.2.2.1
  let gw := r.2.2.2.2
  let gbc := gbH * C.GBH_2_GBC
  let Cs' := if gbc > 0 ∧ An > 0 then Ca - An / gbc else Ca
  let dleaf' := if isclose et 0 ∨ isclose gw 0 then dair
    else et * pressure / gw * C.PA_2_KPA
  ⟨An, gsc, Ci, new_tleaf, et, le_et, gbH, gw, gbc, Cs', dleaf'⟩

/-- Result of the loop on convergence, instrumented: besides `An`, `gsc`
and `et` (the values the source scales to canopy after `break`) it records
the number of loop-body executions performed (`calls`) and the iteration
state `(CsLast, dleafLast, tleafLast)` of the breaking iteration together
with the candidate temperature `tleafCand` it produced. -/
structure LoopOut where
  An : ℚ
  gsc : ℚ
  et : ℚ
  calls : ℕ
  CsLast : ℚ
  dleafLast : ℚ
  tleafLast : ℚ
  tleafCand : ℚ
deriving DecidableEq

/-- The `while True` loop of `CoupledModel.main` (big_leaf.py lines
114-154), fuel-bounded.  `.error (i, n)` models
`raise Exception('No convergence: %d' % iter)` instrumented with the
number `n` of loop-body executions performed; the source's exception
message reports the first component.  `main` supplies fuel
`iter_max + 2`, which is never exhausted (see `loopF_fuel_irrelevant`):
the body at iteration counter `iter` runs only while `iter ≤ iter_max + 1`,
since the counter check `iter > iter_max` raises first. -/
def loopF (C : Consts) (X : Collab) (iter_max : ℕ)
    (tair par vpd dair wind pressure Ca : ℚ) (rnetArg : Option ℚ) :
    ℕ → ℚ → ℚ → ℚ → ℕ → ℕ → Except (ℕ × ℕ) LoopOut
  | 0, _, _, _, iter, calls => .error (iter, calls)
  | fuel + 1, Cs, dleaf, Tleaf, iter, calls =>
    let s := step C X tair par vpd dair wind pressure Ca rnetArg Cs dleaf Tleaf
    if |Tleaf - s.new_tleaf| < 0.02 then
      .ok ⟨s.An, s.gsc, s.et, calls + 1, Cs, dleaf, Tleaf, s.new_tleaf⟩
    else if iter > iter_max then
      .error (iter, calls + 1)
    else
      loopF C X iter_max tair par vpd dair wind pressure Ca rnetArg
        fuel s.Cs' s.dleaf' s.new_tleaf (iter + 1) (calls + 1)

/-- Solar elevation as computed in `CoupledModel.main` (big_leaf.py lines
107-109): `90 - rad2deg (arccos (calculate_solar_geometry doy hod lat lon))`. -/
def elevation (X : Collab) (doy hod lat lon : ℚ) : ℚ :=
  90 - X.rad2deg_arccos (X.calculate_solar_geometry doy hod lat lon)

/-- Embedding of `CoupledModel.main` (big_leaf.py lines 55-164).
Parameters follow the source signature; `iter_max` is the constructor
parameter the loop reads.  Returns the canopy triple
`(an_canopy, gsw_canopy, et_canopy)`, or the non-convergence error. -/
def main (C : Consts) (X : Collab) (iter_max : ℕ)
    (tair par vpd wind pressure Ca doy hod lat lon LAI : ℚ)
    (rnetArg : Option ℚ) : Except (ℕ × ℕ) (ℚ × ℚ × ℚ) :=
  let dleaf := vpd
  let dair := vpd
  let Cs := Ca
  let Tleaf := tair
  if elevation X doy hod lat lon > 0 ∧ par > 20 then
    match loopF C X iter_max tair par vpd dair wind pressure Ca rnetArg
        (iter_max + 2) Cs dleaf Tleaf 0 0 with
    | .error e => .error e
    | .ok o => .ok (o.An * LAI, o.gsc * C.GSC_2_GSW * LAI, o.et * LAI)
  else
    .ok (0, 0, 0)

/-- The solver `CoupledModel.main` instrumented to expose the loop result: `.ok none`
when the darkness gate short-circuits (the loop is never entered),
`.ok (some o)` with the full converged loop record otherwise. -/
def mainFull (C : Consts) (X : Collab) (iter_max : ℕ)
    (tair par vpd wind pressure Ca doy hod lat lon : ℚ)
    (rnetArg : Option ℚ) : Except (ℕ × ℕ) (Option LoopOut) :=
  let dleaf := vpd
  let dair := vpd
  let Cs := Ca
  let Tleaf := tair
  if elevation X doy hod lat lon > 0 ∧ par > 20 then
    match loopF C X iter_max tair par vpd dair wind pressure Ca rnetArg
        (iter_max + 2) Cs dleaf Tleaf 0 0 with
    | .error e => .error e
    | .ok o => .ok (some o)
  else
    .ok none

/-! ### Helper lemmas -/

/-- With `rel_tol = 1e-9` and `abs_tol = 0`, `isclose a 0` holds exactly
when `a = 0`. -/
lemma isclose_zero_iff (a : ℚ) : isclose a 0 = true ↔ a = 0 := by
  unfold isclose
  simp only [decide_eq_true_eq, sub_zero, abs_zero]
  constructor
  · intro h
    by_contra ha
    have h0 : 0 < |a| := abs_pos.mpr ha
    have hmax : max |a| 0 = |a| := max_eq_left (abs_nonneg a)
    rw [hmax, max_eq_left (by positivity)] at h
    nlinarith
  · intro h
    simp [h]

/-- The fuel supplied to `loopF` is irrelevant as long as it covers the
remaining iterations: starting from counter `iter ≤ iter_max + 1` with at
least `iter_max + 2 - iter` fuel, the loop's result does not depend on
the fuel.  In particular the fuel `iter_max + 2` supplied by `main` is
never exhausted. -/
lemma loopF_fuel_irrelevant (C : Consts) (X : Collab) (iter_max : ℕ)
    (tair par vpd dair wind pressure Ca : ℚ) (rnetArg : Option ℚ) :
    ∀ f g iter, iter ≤ iter_max + 1 → iter_max + 2 ≤ iter + f →
      iter_max + 2 ≤ iter + g → ∀ Cs dleaf Tleaf calls,
      loopF C X iter_max tair par vpd dair wind pressure Ca rnetArg
        f Cs dleaf Tleaf iter calls =
      loopF C X iter_max tair par vpd dair wind pressure Ca rnetArg
        g Cs dleaf Tleaf iter calls := by
  intro f
  induction f with
  | zero =>
    intro g iter h1 h2 h3 Cs dleaf Tleaf calls
    exact absurd h2 (by omega)
  | succ f ih =>
    intro g iter h1 h2 h3 Cs dleaf Tleaf calls
    match g with
    | 0 => exact absurd h3 (by omega)
    | g + 1 =>
      simp only [loopF]
      split
      · rfl
      · split
        · rfl
        · rename_i hconv hiter
          exact ih g (iter + 1) (by omega) (by omega) (by omega) _ _ _ _

/-- Whatever the loop returns on convergence is exactly what the breaking
iteration computed: the flux outputs are the demand-model and
energy-balance values at the recorded state, and the recorded candidate
temperature is within the tolerance of the recorded leaf temperature. -/
lemma loopF_ok_spec (C : Consts) (X : Collab) (iter_max : ℕ)
    (tair par vpd dair wind pressure Ca : ℚ) (rnetArg : Option ℚ) :
    ∀ f Cs dleaf Tleaf iter calls o,
      loopF C X iter_max tair par vpd dair wind pressure Ca rnetArg
        f Cs dleaf Tleaf iter calls = .ok o →
      o.An = (step C X tair par vpd dair wind pressure Ca rnetArg
        o.CsLast o.dleafLast o.tleafLast).An ∧
      o.gsc = (step C X tair par vpd dair wind pressure Ca rnetArg
        o.CsLast o.dleafLast o.tleafLast).gsc ∧
      o.et = (step C X tair par vpd dair wind pressure Ca rnetArg
        o.CsLast o.dleafLast o.tleafLast).et ∧
      o.tleafCand = (step C X tair par vpd dair wind pressure Ca rnetArg
        o.CsLast o.dleafLast o.tleafLast).new_tleaf ∧
      |o.tleafLast - o.tleafCand| < 0.02 := by
  intro f
  induction f with
  | zero =>
    intro Cs dleaf Tleaf iter calls o h
    simp only [loopF] at h
    exact Except.noConfusion h
  | succ f ih =>
    intro Cs dleaf Tleaf iter calls o h
    simp only [loopF] at h
    split at h
    · rename_i hconv
      cases h
      exact ⟨rfl, rfl, rfl, rfl, hconv⟩
    · split at h
      · exact Except.noConfusion h
      · exact ih _ _ _ _ _ _ h

/-- If at no state does the candidate leaf temperature land within the
tolerance, the loop raises: starting at counter `iter` with matching fuel
it performs the remaining `f` body executions and reports counter
`iter_max + 1`. -/
lemma loopF_diverge (C : Consts) (X : Collab) (iter_max : ℕ)
    (tair par vpd dair wind pressure Ca : ℚ) (rnetArg : Option ℚ)
    (hdiv : ∀ Cs dleaf Tleaf : ℚ,
      ¬ |Tleaf - (step C X tair par vpd dair wind pressure Ca rnetArg
          Cs dleaf Tleaf).new_tleaf| < 0.02) :
    ∀ f iter, iter ≤ iter_max + 1 → iter + f = iter_max + 2 →
      ∀ Cs dleaf Tleaf calls,
        loopF C X iter_max tair par vpd dair wind pressure Ca rnetArg
          f Cs dleaf Tleaf iter calls = .error (iter_max + 1, calls + f) := by
  intro f
  induction f with
  | zero =>
    intro iter h1 h2 Cs dleaf Tleaf calls
    exact absurd h2 (by omega)
  | succ f ih =>
    intro iter h1 h2 Cs dleaf Tleaf calls
    simp only [loopF]
    rw [if_neg (hdiv Cs dleaf Tleaf)]
    by_cases hit : iter > iter_max
    · rw [if_pos hit]
      have hi : iter = iter_max + 1 := by omega
      have hf : f = 0 := by omega
      subst hi hf
      rfl
    · rw [if_neg hit]
      rw [ih (iter + 1) (by omega) (by omega)]
      have : calls + 1 + f = calls + (f + 1) := by omega
      rw [this]

/-- The function `main` is the canopy-scaled projection of `mainFull`. -/
lemma main_eq_mainFull (C : Consts) (X : Collab) (iter_max : ℕ)
    (tair par vpd wind pressure Ca doy hod lat lon LAI : ℚ)
    (rnetArg : Option ℚ) :
    main C X iter_max tair par vpd wind pressure Ca doy hod lat lon LAI rnetArg =
      match mainFull C X iter_max tair par vpd wind pressure Ca doy hod lat
          lon rnetArg with
      | .error e => .error e
      | .ok none => .ok (0, 0, 0)
      | .ok (some o) => .ok (o.An * LAI, o.gsc * C.GSC_2_GSW * LAI, o.et * LAI) := by
  simp only [main, mainFull]
  split
  · rcases hl : loopF C X iter_max tair par vpd vpd wind pressure Ca rnetArg
        (iter_max + 2) Ca vpd tair 0 0 with e | o <;> rfl
  · rfl

/-- A successful sun-up call of `mainFull` comes from a successful loop
run started at the initial state `(Cs, dleaf, Tleaf) = (Ca, vpd, tair)`. -/
lemma mainFull_ok_some (C : Consts) (X : Collab) (iter_max : ℕ)
    (tair par vpd wind pressure Ca doy hod lat lon : ℚ)
    (rnetArg : Option ℚ) (o : LoopOut)
    (h : mainFull C X iter_max tair par vpd wind pressure Ca doy hod lat
        lon rnetArg = .ok (some o)) :
    loopF C X iter_max tair par vpd vpd wind pressure Ca rnetArg
      (iter_max + 2) Ca vpd tair 0 0 = .ok o := by
  simp only [mainFull] at h
  split at h
  · rcases hl : loopF C X iter_max tair par vpd vpd wind pressure Ca rnetArg
        (iter_max + 2) Ca vpd tair 0 0 with e | o2 <;> rw [hl] at h
    · exact Except.noConfusion h
    · cases h
      rfl
  · simp at h

/-! ### Concrete instances used to exercise the solver -/

/-- Sample constant table (abstract values; every theorem quantifies over
the table, these values only drive the concrete runs below). -/
def demoConsts : Consts := ⟨1, 1, 1, 1, 1, 1, 1⟩

/-- Collaborators for which the very first iteration converges: the
candidate temperature equals the (zero) air temperature. -/
def convCollab : Collab where
  calc_photosynthesis := fun _ _ _ _ => (2, 3, 4)
  calc_rnet := fun _ _ _ _ _ _ => 0
  calc_conductances := fun _ _ _ _ _ _ => (0, 1, 1, 1)
  calc_et := fun _ _ _ _ _ _ _ _ _ => (1, 0)
  calculate_solar_geometry := fun _ _ _ _ => 1
  rad2deg_arccos := fun _ => 0

/-- Collaborators for which the candidate temperature always moves one
degree away from the current leaf temperature, so the tolerance is never
met at any state. -/
def ncCollab : Collab where
  calc_photosynthesis := fun _ _ _ _ => (1, 1, 1)
  calc_rnet := fun _ _ _ _ _ _ => 0
  calc_conductances := fun _ _ _ _ _ _ => (0, 1, 1, 1)
  calc_et := fun tleaf _ _ _ _ _ _ _ _ => (1, -tleaf - 1)
  calculate_solar_geometry := fun _ _ _ _ => 1
  rad2deg_arccos := fun _ => 0

/-- Collaborators whose solar geometry puts the sun below the horizon
(zenith angle 100°, elevation −10°). -/
def darkCollab : Collab where
  calc_photosynthesis := fun _ _ _ _ => (1, 1, 1)
  calc_rnet := fun _ _ _ _ _ _ => 0
  calc_conductances := fun _ _ _ _ _ _ => (0, 1, 1, 1)
  calc_et := fun _ _ _ _ _ _ _ _ _ => (1, 0)
  calculate_solar_geometry := fun _ _ _ _ => 1
  rad2deg_arccos := fun _ => 100

/-- Collaborators whose demand model returns stomatal conductance
exactly zero (its energy-balance `calc_et` would return nonzero values,
showing the zero fluxes come from the guard). -/
def zeroGscCollab : Collab where
  calc_photosynthesis := fun _ _ _ _ => (5, 0, 3)
  calc_rnet := fun _ _ _ _ _ _ => 0
  calc_conductances := fun _ _ _ _ _ _ => (0, 1, 1, 1)
  calc_et := fun _ _ _ _ _ _ _ _ _ => (9, 9)
  calculate_solar_geometry := fun _ _ _ _ => 1
  rad2deg_arccos := fun _ => 0

/-! ### Small-step evaluation lemmas -/

/-- The guard `isclose 0 0` holds. -/
lemma isclose_zero : isclose 0 0 = true := (isclose_zero_iff 0).mpr rfl

/-- The guard `isclose a 0` fails for every nonzero `a`. -/
lemma isclose_eq_false {a : ℚ} (h : a ≠ 0) : isclose a 0 = false := by
  rw [Bool.eq_false_iff]
  intro hc
  exact h ((isclose_zero_iff a).mp hc)

/-- Unfolding `loopF` on the breaking iteration. -/
lemma loopF_break (C : Consts) (X : Collab) (iter_max : ℕ)
    (tair par vpd dair wind pressure Ca : ℚ) (rnetArg : Option ℚ)
    (f : ℕ) (Cs dleaf Tleaf : ℚ) (iter calls : ℕ) (s : StepOut)
    (hs : step C X tair par vpd dair wind pressure Ca rnetArg Cs dleaf
        Tleaf = s)
    (hconv : |Tleaf - s.new_tleaf| < 0.02) :
    loopF C X iter_max tair par vpd dair wind pressure Ca rnetArg (f + 1)
        Cs dleaf Tleaf iter calls =
      .ok ⟨s.An, s.gsc, s.et, calls + 1, Cs, dleaf, Tleaf, s.new_tleaf⟩ := by
  simp only [loopF, hs]
  rw [if_pos hconv]

/-- Unfolding `loopF` on a non-converged, non-raising iteration. -/
lemma loopF_continue (C : Consts) (X : Collab) (iter_max : ℕ)
    (tair par vpd dair wind pressure Ca : ℚ) (rnetArg : Option ℚ)
    (f : ℕ) (Cs dleaf Tleaf : ℚ) (iter calls : ℕ) (s : StepOut)
    (hs : step C X tair par vpd dair wind pressure Ca rnetArg Cs dleaf
        Tleaf = s)
    (hconv : ¬ |Tleaf - s.new_tleaf| < 0.02) (hit : ¬ iter > iter_max) :
    loopF C X iter_max tair par vpd dair wind pressure Ca rnetArg (f + 1)
        Cs dleaf Tleaf iter calls =
      loopF C X iter_max tair par vpd dair wind pressure Ca rnetArg f
        s.Cs' s.dleaf' s.new_tleaf (iter + 1) (calls + 1) := by
  simp only [loopF, hs]
  rw [if_neg hconv, if_neg hit]

/-- Unfolding `loopF` on the raising iteration. -/
lemma loopF_raise (C : Consts) (X : Collab) (iter_max : ℕ)
    (tair par vpd dair wind pressure Ca : ℚ) (rnetArg : Option ℚ)
    (f : ℕ) (Cs dleaf Tleaf : ℚ) (iter calls : ℕ) (s : StepOut)
    (hs : step C X tair par vpd dair wind pressure Ca rnetArg Cs dleaf
        Tleaf = s)
    (hconv : ¬ |Tleaf - s.new_tleaf| < 0.02) (hit : iter > iter_max) :
    loopF C X iter_max tair par vpd dair wind pressure Ca rnetArg (f + 1)
        Cs dleaf Tleaf iter calls = .error (iter, calls + 1) := by
  simp only [loopF, hs]
  rw [if_neg hconv, if_pos hit]

/-- The concrete converging run: value of the loop body at the initial
state. -/
lemma convCollab_step :
    step demoConsts convCollab 0 100 1 1 1 1 400 (some 0) 400 1 0 =
      ⟨2, 3, 4, 0, 1, 0, 1, 1, 1, 398, 1⟩ := by
  norm_num [step, calc_leaf_temp, convCollab, demoConsts, isclose_eq_false]

/-- The concrete converging run: the loop breaks on its first iteration. -/
lemma convCollab_loop :
    loopF demoConsts convCollab 5 0 100 1 1 1 1 400 (some 0) (5 + 2)
        400 1 0 0 0 = .ok ⟨2, 3, 1, 1, 400, 1, 0, 0⟩ := by
  have e1 := loopF_break demoConsts convCollab 5 0 100 1 1 1 1 400
    (some 0) 6 400 1 0 0 0 _ convCollab_step
    (by norm_num [abs_sub_lt_iff])
  norm_num at e1
  exact e1

/-- The concrete converging run through `mainFull`. -/
lemma convCollab_mainFull :
    mainFull demoConsts convCollab 5 0 100 1 1 1 400 1 1 1 1 (some 0) =
      .ok (some ⟨2, 3, 1, 1, 400, 1, 0, 0⟩) := by
  have hg : elevation convCollab 1 1 1 1 > 0 ∧ (100 : ℚ) > 20 :=
    ⟨by norm_num [elevation, convCollab], by norm_num⟩
  simp only [mainFull]
  rw [if_pos hg, convCollab_loop]

/-- The concrete diverging run: the loop body always moves the candidate
temperature one degree up. -/
lemma ncCollab_step (Cs dleaf Tleaf : ℚ) :
    step demoConsts ncCollab 0 100 1 1 1 1 400 (some 0) Cs dleaf Tleaf =
      ⟨1, 1, 1, Tleaf + 1, 1, -Tleaf - 1, 1, 1, 1, 399, 1⟩ := by
  norm_num [step, calc_leaf_temp, ncCollab, demoConsts, isclose_eq_false]
  ring

/-- The concrete diverging run with `iter_max = 0`: the loop executes its
body twice and raises reporting counter 1. -/
lemma ncCollab_loop :
    loopF demoConsts ncCollab 0 0 100 1 1 1 1 400 (some 0) (0 + 2)
        400 1 0 0 0 = .error (1, 2) := by
  have e1 := loopF_continue demoConsts ncCollab 0 0 100 1 1 1 1 400
    (some 0) 1 400 1 0 0 0 _ (ncCollab_step 400 1 0)
    (by norm_num [abs_sub_lt_iff]) (by omega)
  have e2 := loopF_raise demoConsts ncCollab 0 0 100 1 1 1 1 400
    (some 0) 0 399 1 1 1 1 _ (ncCollab_step 399 1 1)
    (by norm_num [abs_sub_lt_iff]) (by omega)
  norm_num at e1 e2
  norm_num
  rw [e1, e2]

/-! ### Claims -/

/-- C1: for every call to `CoupledModel.main`, if the computed solar
elevation is ≤ 0° or PAR is ≤ 20 µmol m⁻² s⁻¹, the call returns exactly
the tuple (0, 0, 0), regardless of all other inputs and collaborators,
and no iteration is performed (the loop record of the instrumented run is
`none`: the loop is never entered). -/
theorem C1_darkness_gate (C : Consts) (X : Collab) (iter_max : ℕ)
    (tair par vpd wind pressure Ca doy hod lat lon LAI : ℚ)
    (rnetArg : Option ℚ)
    (h : elevation X doy hod lat lon ≤ 0 ∨ par ≤ 20) :
    main C X iter_max tair par vpd wind pressure Ca doy hod lat lon LAI
      rnetArg = .ok (0, 0, 0) ∧
    mainFull C X iter_max tair par vpd wind pressure Ca doy hod lat lon
      rnetArg = .ok none := by
  have hg : ¬(elevation X doy hod lat lon > 0 ∧ par > 20) := by
    rcases h with h | h
    · exact fun hc => absurd hc.1 (not_lt.mpr h)
    · exact fun hc => absurd hc.2 (not_lt.mpr h)
  constructor
  · simp only [main, if_neg hg]
  · simp only [mainFull, if_neg hg]

/-- C1 witness: a concrete dark call (elevation −10°, PAR 500) returns
(0, 0, 0) with the loop never entered. -/
theorem C1_darkness_gate_witness :
    main demoConsts darkCollab 100 25 500 1 2 101325 400 100 12 50 10 3
      none = .ok (0, 0, 0) ∧
    mainFull demoConsts darkCollab 100 25 500 1 2 101325 400 100 12 50 10
      none = .ok none :=
  C1_darkness_gate demoConsts darkCollab 100 25 500 1 2 101325 400 100 12
    50 10 3 none (Or.inl (by norm_num [elevation, darkCollab]))

/-- C3: every successful sun-up call converged: the loop record `o` of
the instrumented run satisfies |last leaf temperature − candidate leaf
temperature| < 0.02 °C at the returned state.  The loop only produces
`.ok` through the `break` branch, so success is never reported
otherwise. -/
theorem C3_convergence_at_return (C : Consts) (X : Collab) (iter_max : ℕ)
    (tair par vpd wind pressure Ca doy hod lat lon : ℚ)
    (rnetArg : Option ℚ) (o : LoopOut)
    (h : mainFull C X iter_max tair par vpd wind pressure Ca doy hod lat
        lon rnetArg = .ok (some o)) :
    |o.tleafLast - o.tleafCand| < 0.02 :=
  (loopF_ok_spec C X iter_max tair par vpd vpd wind pressure Ca rnetArg
    (iter_max + 2) Ca vpd tair 0 0 o
    (mainFull_ok_some C X iter_max tair par vpd wind pressure Ca doy hod
      lat lon rnetArg o h)).2.2.2.2

/-- C3 witness: a concrete converged run (leaf temperature 0, candidate
0) satisfies the tolerance. -/
theorem C3_convergence_at_return_witness : |(0 : ℚ) - 0| < 0.02 :=
  C3_convergence_at_return demoConsts convCollab 5 0 100 1 1 1 400 1 1
    1 1 (some 0) ⟨2, 3, 1, 1, 400, 1, 0, 0⟩ convCollab_mainFull

/-- C4: for every converged call, the returned canopy values equal the
per-leaf values of the loop record scaled by leaf-area index:
An·LAI, gsc·GSC_2_GSW·LAI, et·LAI; and for LAI = 0 all three canopy
outputs are exactly zero. -/
theorem C4_canopy_scaling (C : Consts) (X : Collab) (iter_max : ℕ)
    (tair par vpd wind pressure Ca doy hod lat lon LAI : ℚ)
    (rnetArg : Option ℚ) (o : LoopOut)
    (h : mainFull C X iter_max tair par vpd wind pressure Ca doy hod lat
        lon rnetArg = .ok (some o)) :
    main C X iter_max tair par vpd wind pressure Ca doy hod lat lon LAI
      rnetArg = .ok (o.An * LAI, o.gsc * C.GSC_2_GSW * LAI, o.et * LAI) ∧
    (LAI = 0 →
      main C X iter_max tair par vpd wind pressure Ca doy hod lat lon LAI
        rnetArg = .ok (0, 0, 0)) := by
  have hm : main C X iter_max tair par vpd wind pressure Ca doy hod lat
      lon LAI rnetArg =
      .ok (o.An * LAI, o.gsc * C.GSC_2_GSW * LAI, o.et * LAI) := by
    rw [main_eq_mainFull, h]
  refine ⟨hm, fun hLAI => ?_⟩
  rw [hm, hLAI]
  norm_num

/-- C4 witness: a concrete converged run with nonzero per-leaf values
(An = 2, gsc = 3, et = 1) and LAI = 0 yields canopy outputs
(2·0, 3·1·0, 1·0) — all exactly zero. -/
theorem C4_canopy_scaling_witness :
    main demoConsts convCollab 5 0 100 1 1 1 400 1 1 1 1 0 (some 0) =
      .ok (2 * 0, 3 * demoConsts.GSC_2_GSW * 0, 1 * 0) ∧
    ((0 : ℚ) = 0 →
      main demoConsts convCollab 5 0 100 1 1 1 400 1 1 1 1 0 (some 0) =
        .ok (0, 0, 0)) :=
  C4_canopy_scaling demoConsts convCollab 5 0 100 1 1 1 400 1 1 1 1 0
    (some 0) ⟨2, 3, 1, 1, 400, 1, 0, 0⟩ convCollab_mainFull

/-- C9: the loop breaks before the leaf temperature is advanced: the An
and gsc scaled to canopy outputs are the demand-model values at the leaf
temperature of the breaking iterate (`tleafLast`), not at the converged
candidate (`tleafCand`); et and the candidate are the energy-balance
values at that same previous temperature. -/
theorem C9_outputs_at_previous_iterate (C : Consts) (X : Collab)
    (iter_max : ℕ)
    (tair par vpd wind pressure Ca doy hod lat lon LAI : ℚ)
    (rnetArg : Option ℚ) (o : LoopOut)
    (h : mainFull C X iter_max tair par vpd wind pressure Ca doy hod lat
        lon rnetArg = .ok (some o)) :
    o.An = (X.calc_photosynthesis o.CsLast (o.tleafLast + C.DEG_2_KELVIN)
      par o.dleafLast).1 ∧
    o.gsc = (X.calc_photosynthesis o.CsLast (o.tleafLast + C.DEG_2_KELVIN)
      par o.dleafLast).2.1 ∧
    o.et = (calc_leaf_temp C X o.tleafLast tair o.gsc par vpd pressure
      wind rnetArg).2.1 ∧
    o.tleafCand = (calc_leaf_temp C X o.tleafLast tair o.gsc par vpd
      pressure wind rnetArg).1 ∧
    main C X iter_max tair par vpd wind pressure Ca doy hod lat lon LAI
      rnetArg = .ok (o.An * LAI, o.gsc * C.GSC_2_GSW * LAI, o.et * LAI) := by
  obtain ⟨hAn, hgsc, het, hcand, hconv⟩ :=
    loopF_ok_spec C X iter_max tair par vpd vpd wind pressure Ca rnetArg
      (iter_max + 2) Ca vpd tair 0 0 o
      (mainFull_ok_some C X iter_max tair par vpd wind pressure Ca doy hod
        lat lon rnetArg o h)
  refine ⟨hAn, hgsc, ?_, ?_, ?_⟩
  · rw [hgsc]
    exact het
  · rw [hgsc]
    exact hcand
  · rw [main_eq_mainFull, h]

/-- C9 witness: in the concrete converged run the returned An = 2,
gsc = 3 are the demand-model outputs at the recorded previous-iterate
state (Cs 400, leaf temperature 0), et = 1 and the candidate 0 are the
energy-balance outputs there, and the canopy outputs are those values
scaled by LAI = 2. -/
theorem C9_outputs_at_previous_iterate_witness :
    (2 : ℚ) = (convCollab.calc_photosynthesis 400
      (0 + demoConsts.DEG_2_KELVIN) 100 1).1 ∧
    (3 : ℚ) = (convCollab.calc_photosynthesis 400
      (0 + demoConsts.DEG_2_KELVIN) 100 1).2.1 ∧
    (1 : ℚ) = (calc_leaf_temp demoConsts convCollab 0 0 3 100 1 1 1
      (some 0)).2.1 ∧
    (0 : ℚ) = (calc_leaf_temp demoConsts convCollab 0 0 3 100 1 1 1
      (some 0)).1 ∧
    main demoConsts convCollab 5 0 100 1 1 1 400 1 1 1 1 2 (some 0) =
      .ok (2 * 2, 3 * demoConsts.GSC_2_GSW * 2, 1 * 2) :=
  C9_outputs_at_previous_iterate demoConsts convCollab 5 0 100 1 1 1
    400 1 1 1 1 2 (some 0) ⟨2, 3, 1, 1, 400, 1, 0, 0⟩ convCollab_mainFull

/-- C2 counterexample: the claim predicts that with `iter_max = 0` a
never-converging call fails after exactly 0 iterations.  On a concrete
never-converging run (the candidate temperature always moves 1 °C) with
`iter_max = 0`, the solver executes the loop body exactly 2 times and the
raised error reports iteration counter 1 — both different from
`iter_max = 0`: the counter check `iter > iter_max` only fires at
`iter = iter_max + 1`, after the body has already run `iter_max + 2`
times. -/
theorem C2_counterexample :
    main demoConsts ncCollab 0 0 100 1 1 1 400 1 1 1 1 5 (some 0) =
      .error (1, 2) ∧ (2 : ℕ) ≠ 0 ∧ (1 : ℕ) ≠ 0 := by
  refine ⟨?_, by omega, by omega⟩
  have hg : elevation ncCollab 1 1 1 1 > 0 ∧ (100 : ℚ) > 20 :=
    ⟨by norm_num [elevation, ncCollab], by norm_num⟩
  simp only [main]
  rw [if_pos hg, ncCollab_loop]

/-- C2 (amended): for every call with the sun up, if the 0.02 °C
leaf-temperature tolerance is met at no state, the call fails fatally —
after exactly `iter_max + 2` executions of the loop body, with the raised
error reporting the iteration counter `iter_max + 1` it reached — and
returns no partial result (the error carries no flux values). -/
theorem C2_nonconvergence (C : Consts) (X : Collab) (iter_max : ℕ)
    (tair par vpd wind pressure Ca doy hod lat lon LAI : ℚ)
    (rnetArg : Option ℚ)
    (hgate : elevation X doy hod lat lon > 0 ∧ par > 20)
    (hdiv : ∀ Cs dleaf Tleaf : ℚ,
      ¬ |Tleaf - (step C X tair par vpd vpd wind pressure Ca rnetArg
          Cs dleaf Tleaf).new_tleaf| < 0.02) :
    main C X iter_max tair par vpd wind pressure Ca doy hod lat lon LAI
      rnetArg = .error (iter_max + 1, iter_max + 2) := by
  simp only [main]
  rw [if_pos hgate,
    loopF_diverge C X iter_max tair par vpd vpd wind pressure Ca rnetArg
      hdiv (iter_max + 2) 0 (by omega) (by omega)]
  norm_num

/-- C2 witness: the concrete never-converging run with `iter_max = 3`
fails with the error reporting counter 4 after 5 body executions. -/
theorem C2_nonconvergence_witness :
    main demoConsts ncCollab 3 0 100 1 1 1 400 1 1 1 1 5 (some 0) =
      .error (3 + 1, 3 + 2) :=
  C2_nonconvergence demoConsts ncCollab 3 0 100 1 1 1 400 1 1 1 1 5
    (some 0) ⟨by norm_num [elevation, ncCollab], by norm_num⟩
    (by
      intro Cs dleaf Tleaf
      rw [ncCollab_step]
      show ¬ |Tleaf - (Tleaf + 1)| < 0.02
      rw [show Tleaf - (Tleaf + 1) = -1 from by ring, abs_neg, abs_one]
      norm_num)

/-- C5: when the stomatal conductance to CO2 is exactly zero, the
energy-balance step returns transpiration 0 and latent heat 0 (whatever
the other conductances and the collaborator's `calc_et` would return);
and in the enclosing iteration, if the demand model returned stomatal
conductance 0 at the current state, the surface VPD is set to the air VPD
`dair`. -/
theorem C5_zero_gsc (C : Consts) (X : Collab)
    (tleaf tair par vpd pressure wind : ℚ) (rnetArg : Option ℚ) :
    ((calc_leaf_temp C X tleaf tair 0 par vpd pressure wind rnetArg).2.1 = 0 ∧
     (calc_leaf_temp C X tleaf tair 0 par vpd pressure wind
       rnetArg).2.2.1 = 0) ∧
    ∀ (dair Ca Cs dleaf Tleaf : ℚ),
      (X.calc_photosynthesis Cs (Tleaf + C.DEG_2_KELVIN) par dleaf).2.1 = 0 →
      (step C X tair par vpd dair wind pressure Ca rnetArg Cs dleaf
        Tleaf).dleaf' = dair := by
  refine ⟨by simp [calc_leaf_temp, isclose_zero], ?_⟩
  intro dair Ca Cs dleaf Tleaf hg
  have he : ∀ T : ℚ,
      (calc_leaf_temp C X T tair 0 par vpd pressure wind rnetArg).2.1 = 0 := by
    intro T
    simp [calc_leaf_temp, isclose_zero]
  simp only [step]
  rw [hg, he, isclose_zero]
  simp

/-- C5 witness: concrete collaborators whose demand model returns
gsc = 0 while `calc_et` would return the nonzero pair (9, 9): the
energy-balance step returns et = 0, latent heat = 0, and the iteration
sets the surface VPD to the air VPD 7. -/
theorem C5_zero_gsc_witness :
    ((calc_leaf_temp demoConsts zeroGscCollab 5 0 0 100 1 1 1
        (some 0)).2.1 = 0 ∧
     (calc_leaf_temp demoConsts zeroGscCollab 5 0 0 100 1 1 1
        (some 0)).2.2.1 = 0) ∧
    (step demoConsts zeroGscCollab 0 100 1 7 1 1 400 (some 0)
      400 1 5).dleaf' = 7 :=
  ⟨(C5_zero_gsc demoConsts zeroGscCollab 5 0 100 1 1 1 (some 0)).1,
   (C5_zero_gsc demoConsts zeroGscCollab 5 0 100 1 1 1 (some 0)).2
     7 400 400 1 5 rfl⟩

/-- C6: in every iteration the boundary-layer CO2 conductance is the heat
conductance times the fixed ratio `GBH_2_GBC`; the subtraction
`Ca - An / gbc` is performed only when both `gbc` and `An` are strictly
positive (in which case the divisor is nonzero), and otherwise the
surface CO2 is set to the ambient CO2. -/
theorem C6_surface_co2_guard (C : Consts) (X : Collab)
    (tair par vpd dair wind pressure Ca : ℚ) (rnetArg : Option ℚ)
    (Cs dleaf Tleaf : ℚ) :
    (step C X tair par vpd dair wind pressure Ca rnetArg Cs dleaf
        Tleaf).gbc =
      (step C X tair par vpd dair wind pressure Ca rnetArg Cs dleaf
        Tleaf).gbH * C.GBH_2_GBC ∧
    ((step C X tair par vpd dair wind pressure Ca rnetArg Cs dleaf
        Tleaf).gbc > 0 ∧
     (step C X tair par vpd dair wind pressure Ca rnetArg Cs dleaf
        Tleaf).An > 0 →
      (step C X tair par vpd dair wind pressure Ca rnetArg Cs dleaf
          Tleaf).Cs' =
        Ca - (step C X tair par vpd dair wind pressure Ca rnetArg Cs dleaf
            Tleaf).An /
          (step C X tair par vpd dair wind pressure Ca rnetArg Cs dleaf
            Tleaf).gbc ∧
      (step C X tair par vpd dair wind pressure Ca rnetArg Cs dleaf
        Tleaf).gbc ≠ 0) ∧
    (¬((step C X tair par vpd dair wind pressure Ca rnetArg Cs dleaf
        Tleaf).gbc > 0 ∧
       (step C X tair par vpd dair wind pressure Ca rnetArg Cs dleaf
        Tleaf).An > 0) →
      (step C X tair par vpd dair wind pressure Ca rnetArg Cs dleaf
        Tleaf).Cs' = Ca) := by
  refine ⟨rfl, fun h => ⟨?_, ne_of_gt h.1⟩, fun h => ?_⟩
  · simp only [step] at h ⊢
    rw [if_pos h]
  · simp only [step] at h ⊢
    rw [if_neg h]

/-- C6 witness: in the concrete run (gbc = 1 > 0, An = 2 > 0) the surface
CO2 is ambient minus An/gbc, with nonzero divisor. -/
theorem C6_surface_co2_guard_witness :
    (step demoConsts convCollab 0 100 1 1 1 1 400 (some 0) 400 1 0).Cs' =
      400 - (step demoConsts convCollab 0 100 1 1 1 1 400 (some 0)
          400 1 0).An /
        (step demoConsts convCollab 0 100 1 1 1 1 400 (some 0)
          400 1 0).gbc ∧
    (step demoConsts convCollab 0 100 1 1 1 1 400 (some 0) 400 1 0).gbc ≠ 0 :=
  (C6_surface_co2_guard demoConsts convCollab 0 100 1 1 1 1 400 (some 0)
    400 1 0).2.1 (by rw [convCollab_step]; norm_num)

/-- C7: in every iteration of the solver (which passes `dair = vpd`), the
surface VPD update equals: air VPD if the transpiration or the total
water-vapour conductance is zero (the `math.isclose` guards hold exactly
at zero), and otherwise transpiration × pressure / total water-vapour
conductance scaled by the Pa→kPa factor. -/
theorem C7_surface_vpd_update (C : Consts) (X : Collab)
    (tair par vpd wind pressure Ca : ℚ) (rnetArg : Option ℚ)
    (Cs dleaf Tleaf : ℚ) :
    (step C X tair par vpd vpd wind pressure Ca rnetArg Cs dleaf
        Tleaf).dleaf' =
      if (step C X tair par vpd vpd wind pressure Ca rnetArg Cs dleaf
            Tleaf).et = 0 ∨
         (step C X tair par vpd vpd wind pressure Ca rnetArg Cs dleaf
            Tleaf).gw = 0 then vpd
      else (step C X tair par vpd vpd wind pressure Ca rnetArg Cs dleaf
            Tleaf).et * pressure /
          (step C X tair par vpd vpd wind pressure Ca rnetArg Cs dleaf
            Tleaf).gw * C.PA_2_KPA := by
  simp only [step]
  exact if_congr (or_congr (isclose_zero_iff _) (isclose_zero_iff _)) rfl rfl

/-- C8: the candidate leaf temperature returned by the energy-balance
step is air temperature + H / (CP × air density × (gh / cmolar)), where
H = Y × (rnet − latent heat), Y = 1 / (1 + grn/gbH) (the doubling
2·grn/(2·gbH) in the source cancels), air density is
pressure / (R_dry_air × absolute air temperature) and
cmolar = pressure / (R_gas × absolute air temperature). -/
theorem C8_leaf_temp_formula (C : Consts) (X : Collab)
    (tleaf tair gsc par vpd pressure wind : ℚ) (rnetArg : Option ℚ) :
    (calc_leaf_temp C X tleaf tair gsc par vpd pressure wind rnetArg).1 =
      (let tair_k := tair + C.DEG_2_KELVIN
      let air_density := pressure / (C.RSPECIFC_DRY_AIR * tair_k)
      let cmolar := pressure / (C.RGAS * tair_k)
      let rnet := match rnetArg with
        | none => X.calc_rnet par tair tair_k (tleaf + C.DEG_2_KELVIN)
            vpd pressure
        | some r => r
      let cond := X.calc_conductances tair_k tleaf tair wind gsc cmolar
      let le_et := if isclose gsc 0 then 0
        else (X.calc_et tleaf tair vpd pressure wind par cond.2.1
          cond.2.2.2 rnet).2
      let Y := 1 / (1 + cond.1 / cond.2.2.1)
      let H := Y * (rnet - le_et)
      tair + H / (C.CP * air_density * (cond.2.1 / cmolar))) := by
  simp only [calc_leaf_temp]
  rw [mul_div_mul_left _ _ (by norm_num : (2 : ℚ) ≠ 0),
    apply_ite Prod.snd]

/-- C10: the `math.isclose`-against-0 guards with default tolerances
(relative 1e-9, absolute 0) hold exactly when the tested value is 0: the
surface-VPD fallback is taken exactly when transpiration or the total
water conductance equals zero, and any nonzero value (however small)
fails the guard and takes the division branch. -/
theorem C10_isclose_guard_semantics :
    (∀ a : ℚ, isclose a 0 = true ↔ a = 0) ∧
    (∀ (C : Consts) (X : Collab)
        (tair par vpd dair wind pressure Ca : ℚ) (rnetArg : Option ℚ)
        (Cs dleaf Tleaf : ℚ),
      (step C X tair par vpd dair wind pressure Ca rnetArg Cs dleaf
          Tleaf).dleaf' =
        if (step C X tair par vpd dair wind pressure Ca rnetArg Cs dleaf
              Tleaf).et = 0 ∨
           (step C X tair par vpd dair wind pressure Ca rnetArg Cs dleaf
              Tleaf).gw = 0 then dair
        else (step C X tair par vpd dair wind pressure Ca rnetArg Cs dleaf
              Tleaf).et * pressure /
            (step C X tair par vpd dair wind pressure Ca rnetArg Cs dleaf
              Tleaf).gw * C.PA_2_KPA) ∧
    (∀ a : ℚ, a ≠ 0 → isclose a 0 = false) := by
  refine ⟨isclose_zero_iff, ?_, fun a h => isclose_eq_false h⟩
  intro C X tair par vpd dair wind pressure Ca rnetArg Cs dleaf Tleaf
  simp only [step]
  exact if_congr (or_congr (isclose_zero_iff _) (isclose_zero_iff _)) rfl rfl

/-- C10 witness: the guard holds at 0 and fails at the tiny nonzero value
10⁻¹². -/
theorem C10_isclose_guard_semantics_witness :
    isclose 0 0 = true ∧ isclose (1 / 1000000000000) 0 = false :=
  ⟨(C10_isclose_guard_semantics.1 0).mpr rfl,
   C10_isclose_guard_semantics.2.2 (1 / 1000000000000) (by norm_num)⟩

end BigLeaf
